import Mathlib

/-!
Shallow embedding of the soil-plant-monitor core
(src/models/soil_data.py, src/models/plant_data.py, config/settings.py).

Numeric sensor fields (Python floats) are modelled as rationals `ℚ`;
integer columns as `ℤ`; text columns as `String`; boolean columns as
`Bool`.  A SQLAlchemy `@validates` hook intercepts assignment to the
named column and either returns the value unchanged or raises
`ValueError` with a fixed message; each hook is modelled as a function
returning `Except String v` whose error is that message.  Columns with
no `@validates` hook store any assigned value unconditionally.
-/

/-- Threshold configuration from `config/settings.py` (class `Config`):
the named numeric bounds consumed by the soil scoring functions. -/
structure Config where
  SOIL_PH_MIN : ℚ
  SOIL_PH_MAX : ℚ
  SOIL_MOISTURE_MIN : ℚ
  SOIL_MOISTURE_MAX : ℚ
  SOIL_TEMP_MIN : ℚ
  SOIL_TEMP_MAX : ℚ
  NITROGEN_MIN : ℚ
  PHOSPHORUS_MIN : ℚ
  POTASSIUM_MIN : ℚ
  deriving Repr, DecidableEq

/-- The default values of the thresholds in `config/settings.py`
(the values used when the corresponding environment variable is unset). -/
def defaultConfig : Config :=
  { SOIL_PH_MIN := 6
    SOIL_PH_MAX := 15/2
    SOIL_MOISTURE_MIN := 30
    SOIL_MOISTURE_MAX := 80
    SOIL_TEMP_MIN := 15
    SOIL_TEMP_MAX := 30
    NITROGEN_MIN := 20
    PHOSPHORUS_MIN := 10
    POTASSIUM_MIN := 15 }

/-- The columns of `SoilReading` (soil_data.py), without the
auto-generated `id` and the `timestamp` (irrelevant to the claims). -/
structure SoilReading where
  location : String
  nitrogen : ℚ
  phosphorus : ℚ
  potassium : ℚ
  ph_level : ℚ
  moisture_percent : ℚ
  temperature_celsius : ℚ
  electrical_conductivity : ℚ
  organic_matter_percent : ℚ
  salinity_level : ℚ
  sensor_id : String
  is_valid : Bool
  notes : String
  deriving Repr, DecidableEq

/-- `SoilReading.validate_ph`: `@validates('ph_level')` hook.
Raises unless `0 ≤ ph ≤ 14`; otherwise returns the value unchanged. -/
def validate_ph (ph : ℚ) : Except String ℚ :=
  if ph < 0 ∨ ph > 14 then
    Except.error "pH must be between 0 and 14"
  else
    Except.ok ph

/-- `SoilReading.validate_moisture`: `@validates('moisture_percent')` hook. -/
def validate_moisture (moisture : ℚ) : Except String ℚ :=
  if moisture < 0 ∨ moisture > 100 then
    Except.error "Moisture percentage must be between 0 and 100"
  else
    Except.ok moisture

/-- `SoilReading.validate_temperature`: `@validates('temperature_celsius')` hook. -/
def validate_temperature (temp : ℚ) : Except String ℚ :=
  if temp < -50 ∨ temp > 80 then
    Except.error "Temperature must be between -50 and 80 Celsius"
  else
    Except.ok temp

/-- Assignment to `SoilReading.ph_level` goes through `validate_ph`. -/
def set_ph_level (r : SoilReading) (v : ℚ) : Except String SoilReading :=
  match validate_ph v with
  | Except.ok ph => Except.ok { r with ph_level := ph }
  | Except.error e => Except.error e

/-- Assignment to `SoilReading.nitrogen`.  The source declares no
`@validates` hook for `nitrogen`, so any value is stored unconditionally. -/
def set_nitrogen (r : SoilReading) (v : ℚ) : Except String SoilReading :=
  Except.ok { r with nitrogen := v }

/-- Assignment to `SoilReading.phosphorus`.  No `@validates` hook exists
for `phosphorus`; any value is stored unconditionally. -/
def set_phosphorus (r : SoilReading) (v : ℚ) : Except String SoilReading :=
  Except.ok { r with phosphorus := v }

/-- Assignment to `SoilReading.potassium`.  No `@validates` hook exists
for `potassium`; any value is stored unconditionally. -/
def set_potassium (r : SoilReading) (v : ℚ) : Except String SoilReading :=
  Except.ok { r with potassium := v }

/-- Python's `round` ties-to-even (banker's rounding), on an exact
rational: nearest integer, ties resolved to the even neighbour. -/
def roundHalfEven (x : ℚ) : ℤ :=
  if Int.fract x < 1/2 then ⌊x⌋
  else if 1/2 < Int.fract x then ⌊x⌋ + 1
  else if ⌊x⌋ % 2 = 0 then ⌊x⌋ else ⌊x⌋ + 1

/-- Python's `round(x, 1)`: round to one decimal place. -/
def roundTo1 (x : ℚ) : ℚ := (roundHalfEven (x * 10) : ℚ) / 10

/-- `SoilReading.get_npk_ratio`: percentages of total N+P+K, each rounded
to one decimal place; `(0,0,0)` when the total is zero. -/
def get_npk_ratio (r : SoilReading) : ℚ × ℚ × ℚ :=
  let total := r.nitrogen + r.phosphorus + r.potassium
  if total = 0 then (0, 0, 0)
  else
    (roundTo1 (r.nitrogen / total * 100),
     roundTo1 (r.phosphorus / total * 100),
     roundTo1 (r.potassium / total * 100))

/-- `SoilReading.is_nutrient_deficient`: names of nutrients below their
configured minimum, appended in the order nitrogen, phosphorus, potassium. -/
def is_nutrient_deficient (r : SoilReading) (config : Config) : List String :=
  (if r.nitrogen < config.NITROGEN_MIN then ["nitrogen"] else []) ++
  (if r.phosphorus < config.PHOSPHORUS_MIN then ["phosphorus"] else []) ++
  (if r.potassium < config.POTASSIUM_MIN then ["potassium"] else [])

/-- `SoilReading.get_soil_quality_score`: start at 100, subtract a fixed
penalty per violated band, floor at 0.  The Python score is an `int`. -/
def get_soil_quality_score (r : SoilReading) (config : Config) : ℤ :=
  let s1 : ℤ := 100
  let s2 := if r.ph_level < config.SOIL_PH_MIN ∨ r.ph_level > config.SOIL_PH_MAX
            then s1 - 20 else s1
  let s3 := if r.moisture_percent < config.SOIL_MOISTURE_MIN ∨
               r.moisture_percent > config.SOIL_MOISTURE_MAX
            then s2 - 15 else s2
  let s4 := if r.temperature_celsius < config.SOIL_TEMP_MIN ∨
               r.temperature_celsius > config.SOIL_TEMP_MAX
            then s3 - 10 else s3
  let s5 := if r.nitrogen < config.NITROGEN_MIN then s4 - 15 else s4
  let s6 := if r.phosphorus < config.PHOSPHORUS_MIN then s5 - 15 else s5
  let s7 := if r.potassium < config.POTASSIUM_MIN then s6 - 15 else s6
  let s8 := if r.salinity_level > 2 then s7 - 10 else s7
  max 0 s8

/-- The columns of `PlantReading` (plant_data.py), without the
auto-generated `id` and the `timestamp` (irrelevant to the claims). -/
structure PlantReading where
  location : String
  plant_type : String
  plant_id : String
  height_cm : ℚ
  leaf_count : ℤ
  stem_diameter_mm : ℚ
  leaf_color_r : ℤ
  leaf_color_g : ℤ
  leaf_color_b : ℤ
  leaf_chlorophyll_index : ℚ
  disease_symptoms : String
  pest_presence : Bool
  water_stress_level : ℚ
  nutrient_deficiency_signs : String
  heat_stress_score : ℚ
  drought_stress_score : ℚ
  growth_rate_cm_per_week : ℚ
  health_score : ℚ
  sensor_id : String
  is_valid : Bool
  notes : String
  deriving Repr, DecidableEq

/-- A `PlantReading` built from the column defaults of plant_data.py
(the columns with no default are taken as arguments). -/
def mkDefaultPlantReading (plant_type plant_id : String) (height_cm : ℚ)
    (sensor_id : String) : PlantReading :=
  { location := "default"
    plant_type := plant_type
    plant_id := plant_id
    height_cm := height_cm
    leaf_count := 0
    stem_diameter_mm := 0
    leaf_color_r := 0
    leaf_color_g := 0
    leaf_color_b := 0
    leaf_chlorophyll_index := 0
    disease_symptoms := ""
    pest_presence := false
    water_stress_level := 0
    nutrient_deficiency_signs := ""
    heat_stress_score := 0
    drought_stress_score := 0
    growth_rate_cm_per_week := 0
    health_score := 100
    sensor_id := sensor_id
    is_valid := true
    notes := "" }

/-- `PlantReading.validate_height`: `@validates('height_cm')` hook. -/
def validate_height (height : ℚ) : Except String ℚ :=
  if height < 0 ∨ height > 1000 then
    Except.error "Height must be between 0 and 1000 cm"
  else
    Except.ok height

/-- `PlantReading.validate_rgb`: hook for the three leaf-colour channels
(`leaf_color_r`, `leaf_color_g`, `leaf_color_b`, `Integer` columns). -/
def validate_rgb (value : ℤ) : Except String ℤ :=
  if value < 0 ∨ value > 255 then
    Except.error "RGB values must be between 0 and 255"
  else
    Except.ok value

/-- `PlantReading.validate_stress_scores`: hook for `water_stress_level`,
`heat_stress_score`, `drought_stress_score`. -/
def validate_stress_scores (score : ℚ) : Except String ℚ :=
  if score < 0 ∨ score > 10 then
    Except.error "Stress scores must be between 0 and 10"
  else
    Except.ok score

/-- `PlantReading.validate_health_score`: `@validates('health_score')` hook. -/
def validate_health_score (score : ℚ) : Except String ℚ :=
  if score < 0 ∨ score > 100 then
    Except.error "Health score must be between 0 and 100"
  else
    Except.ok score

/-- `PlantReading.calculate_health_score`: start at 100.0, subtract the
weighted stress levels, fixed deductions for disease/pest/deficiency,
adjust for chlorophyll and growth rate, clamp to [0, 100].
A Python `if self.disease_symptoms:` test is truthiness of the text
column, i.e. non-emptiness. -/
def calculate_health_score (r : PlantReading) : ℚ :=
  let s1 : ℚ := 100 - r.water_stress_level * 5
                    - r.heat_stress_score * 3
                    - r.drought_stress_score * 3
  let s2 := if r.disease_symptoms ≠ "" then s1 - 20 else s1
  let s3 := if r.pest_presence then s2 - 15 else s2
  let s4 := if r.nutrient_deficiency_signs ≠ "" then s3 - 15 else s3
  let s5 := if r.leaf_chlorophyll_index > 40 then s4 + 5
            else if r.leaf_chlorophyll_index < 20 then s4 - 10
            else s4
  let s6 := if r.growth_rate_cm_per_week < 1/2 then s5 - 10
            else if r.growth_rate_cm_per_week > 2 then s5 + 5
            else s5
  max 0 (min 100 s6)

/-- The method call `r.calculate_health_score()` as a state transformer:
the body of the Python method reads `self`'s fields and performs no
assignment to `self`, so the post-state is the unchanged receiver and
the result is the computed score. -/
def calculate_health_score_call (r : PlantReading) : ℚ × PlantReading :=
  (calculate_health_score r, r)

/-- `PlantReading.is_healthy`: compares the stored `health_score` column
against the threshold (default 70.0) with `>=`. -/
def is_healthy (r : PlantReading) (threshold : ℚ := 70) : Bool :=
  r.health_score ≥ threshold

/-- `PlantReading.get_growth_status`: four growth-rate bands checked in
descending order. -/
def get_growth_status (r : PlantReading) : String :=
  if r.growth_rate_cm_per_week ≥ 2 then "Excellent growth"
  else if r.growth_rate_cm_per_week ≥ 1 then "Good growth"
  else if r.growth_rate_cm_per_week ≥ 1/2 then "Moderate growth"
  else "Slow growth"

/-! ### Violation-band predicates for the soil quality score -/

/-- The pH band of `get_soil_quality_score` is violated. -/
def ph_violated (r : SoilReading) (c : Config) : Prop :=
  r.ph_level < c.SOIL_PH_MIN ∨ r.ph_level > c.SOIL_PH_MAX

/-- The moisture band of `get_soil_quality_score` is violated. -/
def moisture_violated (r : SoilReading) (c : Config) : Prop :=
  r.moisture_percent < c.SOIL_MOISTURE_MIN ∨ r.moisture_percent > c.SOIL_MOISTURE_MAX

/-- The temperature band of `get_soil_quality_score` is violated. -/
def temperature_violated (r : SoilReading) (c : Config) : Prop :=
  r.temperature_celsius < c.SOIL_TEMP_MIN ∨ r.temperature_celsius > c.SOIL_TEMP_MAX

/-- Nitrogen below its configured minimum. -/
def nitrogen_deficient (r : SoilReading) (c : Config) : Prop :=
  r.nitrogen < c.NITROGEN_MIN

/-- Phosphorus below its configured minimum. -/
def phosphorus_deficient (r : SoilReading) (c : Config) : Prop :=
  r.phosphorus < c.PHOSPHORUS_MIN

/-- Potassium below its configured minimum. -/
def potassium_deficient (r : SoilReading) (c : Config) : Prop :=
  r.potassium < c.POTASSIUM_MIN

/-- Salinity above the fixed ceiling 2.0. -/
def salinity_high (r : SoilReading) : Prop :=
  r.salinity_level > 2

/-- Total penalty subtracted by `get_soil_quality_score`, one term per
violated band. -/
def violation_penalty (r : SoilReading) (c : Config) : ℤ :=
  (if r.ph_level < c.SOIL_PH_MIN ∨ r.ph_level > c.SOIL_PH_MAX then 20 else 0) +
  (if r.moisture_percent < c.SOIL_MOISTURE_MIN ∨
      r.moisture_percent > c.SOIL_MOISTURE_MAX then 15 else 0) +
  (if r.temperature_celsius < c.SOIL_TEMP_MIN ∨
      r.temperature_celsius > c.SOIL_TEMP_MAX then 10 else 0) +
  (if r.nitrogen < c.NITROGEN_MIN then 15 else 0) +
  (if r.phosphorus < c.PHOSPHORUS_MIN then 15 else 0) +
  (if r.potassium < c.POTASSIUM_MIN then 15 else 0) +
  (if r.salinity_level > 2 then 10 else 0)

/-! ### Concrete readings used in counterexamples and witnesses -/

/-- The example reading of the spec: nitrogen 10, phosphorus 10,
potassium 10, pH 7.0, moisture 50, temperature 20, other columns at
their defaults (salinity 0). -/
def c1Reading : SoilReading :=
  { location := "default", nitrogen := 10, phosphorus := 10, potassium := 10,
    ph_level := 7, moisture_percent := 50, temperature_celsius := 20,
    electrical_conductivity := 1, organic_matter_percent := 0, salinity_level := 0,
    sensor_id := "s1", is_valid := true, notes := "" }

/-- A soil reading violating no band of the default configuration. -/
def goodSoil : SoilReading :=
  { location := "default", nitrogen := 30, phosphorus := 20, potassium := 25,
    ph_level := 7, moisture_percent := 50, temperature_celsius := 20,
    electrical_conductivity := 1, organic_matter_percent := 0, salinity_level := 0,
    sensor_id := "s1", is_valid := true, notes := "" }

/-- `goodSoil` with its pH moved out of the configured band. -/
def acidSoil : SoilReading :=
  { goodSoil with ph_level := 5 }

/-! ### Generic range-validator lemmas -/

/-- A range validator accepts exactly the values of the closed interval,
and returns them unchanged. -/
theorem rangeCheck_ok_iff {α : Type} [LinearOrder α] (lo hi v : α) (msg : String) :
    ((if v < lo ∨ v > hi then (Except.error msg : Except String α) else Except.ok v)
      = Except.ok v) ↔ (lo ≤ v ∧ v ≤ hi) := by
  split_ifs with h
  · constructor
    · intro hbad; exact absurd hbad (by simp)
    · rintro ⟨h1, h2⟩
      rcases h with h | h
      · exact absurd h1 (not_le.mpr h)
      · exact absurd h2 (not_le.mpr h)
  · push_neg at h
    exact iff_of_true rfl ⟨h.1, h.2⟩

/-- A range validator raises its error exactly on values strictly outside
the closed interval. -/
theorem rangeCheck_error_iff {α : Type} [LinearOrder α] (lo hi v : α) (msg : String) :
    ((if v < lo ∨ v > hi then (Except.error msg : Except String α) else Except.ok v)
      = Except.error msg) ↔ (v < lo ∨ v > hi) := by
  split_ifs with h
  · exact iff_of_true rfl h
  · constructor
    · intro hbad; exact absurd hbad (by simp)
    · intro hc; exact absurd hc h

/-! ### Claim C1 -/

/-- Claim C1, counterexample: on the spec's example reading (N=10, P=10,
K=10, pH 7.0, moisture 50, temperature 20, default thresholds),
`is_nutrient_deficient` does not return `["nitrogen"]` and
`get_soil_quality_score` does not return 85: potassium 10 is also below
its minimum 15. -/
theorem claim_C1_counterexample :
    is_nutrient_deficient c1Reading defaultConfig ≠ ["nitrogen"] ∧
    get_soil_quality_score c1Reading defaultConfig ≠ 85 := by
  constructor
  · norm_num [is_nutrient_deficient, c1Reading, defaultConfig]
  · norm_num [get_soil_quality_score, c1Reading, defaultConfig]

/-- Claim C1 as amended: on the spec's example reading scored against
the default thresholds, `is_nutrient_deficient` returns exactly
`["nitrogen", "potassium"]` (both 10 < 20 and 10 < 15 hold) and
`get_soil_quality_score` returns exactly 70 (100 − 15 − 15). -/
theorem claim_C1_amended :
    is_nutrient_deficient c1Reading defaultConfig = ["nitrogen", "potassium"] ∧
    get_soil_quality_score c1Reading defaultConfig = 70 := by
  constructor
  · norm_num [is_nutrient_deficient, c1Reading, defaultConfig]
  · norm_num [get_soil_quality_score, c1Reading, defaultConfig]

/-! ### Claim C2 -/

/-- Claim C2, counterexample: assigning −1 to `nitrogen` succeeds (the
source declares no validator for the nutrient columns), and the stored
reading violates `nitrogen ≥ 0`. -/
theorem claim_C2_counterexample :
    set_nitrogen c1Reading (-1) = Except.ok { c1Reading with nitrogen := -1 } ∧
    ({ c1Reading with nitrogen := -1 } : SoilReading).nitrogen < 0 := by
  exact ⟨rfl, by norm_num⟩

/-- Claim C2 as amended: `SoilReading` validates only `ph_level`,
`moisture_percent` and `temperature_celsius`; assignments to `nitrogen`,
`phosphorus` and `potassium` are stored unconditionally, negative values
included, while an out-of-range `ph_level` assignment is rejected. -/
theorem claim_C2_amended :
    (∀ (r : SoilReading) (v : ℚ), set_nitrogen r v = Except.ok { r with nitrogen := v }) ∧
    (∀ (r : SoilReading) (v : ℚ), set_phosphorus r v = Except.ok { r with phosphorus := v }) ∧
    (∀ (r : SoilReading) (v : ℚ), set_potassium r v = Except.ok { r with potassium := v }) ∧
    (∀ (r : SoilReading) (v : ℚ), (v < 0 ∨ v > 14) →
      set_ph_level r v = Except.error "pH must be between 0 and 14") := by
  refine ⟨fun r v => rfl, fun r v => rfl, fun r v => rfl, fun r v h => ?_⟩
  unfold set_ph_level validate_ph
  rw [if_pos h]

/-- Claim C2 amended, witness: the pH-rejection clause applied at the
concrete out-of-range value 15. -/
theorem claim_C2_amended_witness :
    set_ph_level c1Reading 15 = Except.error "pH must be between 0 and 14" :=
  claim_C2_amended.2.2.2 c1Reading 15 (by norm_num)

/-! ### Claim C3 -/

/-- Claim C3, counterexample: the error raised at a rejected assignment
is a fixed message, identical for distinct rejected values — for pH it is
the same for 15 and 9001, for an RGB channel the same for 300 and 400 —
so the raised error does not carry the rejected value. -/
theorem claim_C3_counterexample :
    validate_ph 15 = Except.error "pH must be between 0 and 14" ∧
    validate_ph 9001 = Except.error "pH must be between 0 and 14" ∧
    (15 : ℚ) ≠ 9001 ∧
    validate_rgb 300 = Except.error "RGB values must be between 0 and 255" ∧
    validate_rgb 400 = Except.error "RGB values must be between 0 and 255" ∧
    (300 : ℤ) ≠ 400 :=
  ⟨rfl, rfl, by norm_num, rfl, rfl, by norm_num⟩

/-- Claim C3 as amended: for every bounded field, a rejected assignment
raises an error with a fixed message that names the field/quantity and
the allowed range, but the message is independent of the rejected value
(the value itself is not carried): all seven validators — pH, moisture,
temperature, height, RGB channel, stress score, health score — raise
the same message for every rejected value of their field. -/
theorem claim_C3_amended :
    ((∀ v : ℚ, (v < 0 ∨ v > 14) →
      validate_ph v = Except.error "pH must be between 0 and 14") ∧
    (∀ v w : ℚ, (v < 0 ∨ v > 14) → (w < 0 ∨ w > 14) →
      validate_ph v = validate_ph w)) ∧
    ((∀ v : ℚ, (v < 0 ∨ v > 100) →
      validate_moisture v = Except.error "Moisture percentage must be between 0 and 100") ∧
    (∀ v w : ℚ, (v < 0 ∨ v > 100) → (w < 0 ∨ w > 100) →
      validate_moisture v = validate_moisture w)) ∧
    ((∀ v : ℚ, (v < -50 ∨ v > 80) →
      validate_temperature v = Except.error "Temperature must be between -50 and 80 Celsius") ∧
    (∀ v w : ℚ, (v < -50 ∨ v > 80) → (w < -50 ∨ w > 80) →
      validate_temperature v = validate_temperature w)) ∧
    ((∀ v : ℚ, (v < 0 ∨ v > 1000) →
      validate_height v = Except.error "Height must be between 0 and 1000 cm") ∧
    (∀ v w : ℚ, (v < 0 ∨ v > 1000) → (w < 0 ∨ w > 1000) →
      validate_height v = validate_height w)) ∧
    ((∀ v : ℤ, (v < 0 ∨ v > 255) →
      validate_rgb v = Except.error "RGB values must be between 0 and 255") ∧
    (∀ v w : ℤ, (v < 0 ∨ v > 255) → (w < 0 ∨ w > 255) →
      validate_rgb v = validate_rgb w)) ∧
    ((∀ v : ℚ, (v < 0 ∨ v > 10) →
      validate_stress_scores v = Except.error "Stress scores must be between 0 and 10") ∧
    (∀ v w : ℚ, (v < 0 ∨ v > 10) → (w < 0 ∨ w > 10) →
      validate_stress_scores v = validate_stress_scores w)) ∧
    ((∀ v : ℚ, (v < 0 ∨ v > 100) →
      validate_health_score v = Except.error "Health score must be between 0 and 100") ∧
    (∀ v w : ℚ, (v < 0 ∨ v > 100) → (w < 0 ∨ w > 100) →
      validate_health_score v = validate_health_score w)) := by
  have hph : ∀ v : ℚ, (v < 0 ∨ v > 14) →
      validate_ph v = Except.error "pH must be between 0 and 14" := by
    intro v h; unfold validate_ph; rw [if_pos h]
  have hmo : ∀ v : ℚ, (v < 0 ∨ v > 100) →
      validate_moisture v = Except.error "Moisture percentage must be between 0 and 100" := by
    intro v h; unfold validate_moisture; rw [if_pos h]
  have hte : ∀ v : ℚ, (v < -50 ∨ v > 80) →
      validate_temperature v = Except.error "Temperature must be between -50 and 80 Celsius" := by
    intro v h; unfold validate_temperature; rw [if_pos h]
  have hhe : ∀ v : ℚ, (v < 0 ∨ v > 1000) →
      validate_height v = Except.error "Height must be between 0 and 1000 cm" := by
    intro v h; unfold validate_height; rw [if_pos h]
  have hrgb : ∀ v : ℤ, (v < 0 ∨ v > 255) →
      validate_rgb v = Except.error "RGB values must be between 0 and 255" := by
    intro v h; unfold validate_rgb; rw [if_pos h]
  have hst : ∀ v : ℚ, (v < 0 ∨ v > 10) →
      validate_stress_scores v = Except.error "Stress scores must be between 0 and 10" := by
    intro v h; unfold validate_stress_scores; rw [if_pos h]
  have hhs : ∀ v : ℚ, (v < 0 ∨ v > 100) →
      validate_health_score v = Except.error "Health score must be between 0 and 100" := by
    intro v h; unfold validate_health_score; rw [if_pos h]
  exact ⟨⟨hph, fun v w hv hw => (hph v hv).trans (hph w hw).symm⟩,
         ⟨hmo, fun v w hv hw => (hmo v hv).trans (hmo w hw).symm⟩,
         ⟨hte, fun v w hv hw => (hte v hv).trans (hte w hw).symm⟩,
         ⟨hhe, fun v w hv hw => (hhe v hv).trans (hhe w hw).symm⟩,
         ⟨hrgb, fun v w hv hw => (hrgb v hv).trans (hrgb w hw).symm⟩,
         ⟨hst, fun v w hv hw => (hst v hv).trans (hst w hw).symm⟩,
         ⟨hhs, fun v w hv hw => (hhs v hv).trans (hhs w hw).symm⟩⟩

/-- Claim C3 amended, witness: each validator, applied at a concrete
rejected value, raises its fixed message. -/
theorem claim_C3_amended_witness :
    validate_ph 15 = Except.error "pH must be between 0 and 14" ∧
    validate_moisture 101 = Except.error "Moisture percentage must be between 0 and 100" ∧
    validate_temperature 81 = Except.error "Temperature must be between -50 and 80 Celsius" ∧
    validate_height 1001 = Except.error "Height must be between 0 and 1000 cm" ∧
    validate_rgb 300 = Except.error "RGB values must be between 0 and 255" ∧
    validate_stress_scores 11 = Except.error "Stress scores must be between 0 and 10" ∧
    validate_health_score 101 = Except.error "Health score must be between 0 and 100" :=
  ⟨claim_C3_amended.1.1 15 (by norm_num),
   claim_C3_amended.2.1.1 101 (by norm_num),
   claim_C3_amended.2.2.1.1 81 (by norm_num),
   claim_C3_amended.2.2.2.1.1 1001 (by norm_num),
   claim_C3_amended.2.2.2.2.1.1 300 (by norm_num),
   claim_C3_amended.2.2.2.2.2.1.1 11 (by norm_num),
   claim_C3_amended.2.2.2.2.2.2.1 101 (by norm_num)⟩

/-! ### Claim C4 -/

/-- Claim C4: every bounded field's validator accepts a value unchanged
exactly when it lies in the closed range, and raises its range-violation
error exactly when the value lies strictly outside — for ph_level [0,14],
moisture_percent [0,100], temperature_celsius [-50,80], height_cm
[0,1000], each leaf-colour channel [0,255], each stress score [0,10] and
health_score [0,100]. -/
theorem claim_C4 :
    (∀ v : ℚ, (validate_ph v = Except.ok v ↔ 0 ≤ v ∧ v ≤ 14) ∧
      (validate_ph v = Except.error "pH must be between 0 and 14" ↔ (v < 0 ∨ v > 14))) ∧
    (∀ v : ℚ, (validate_moisture v = Except.ok v ↔ 0 ≤ v ∧ v ≤ 100) ∧
      (validate_moisture v = Except.error "Moisture percentage must be between 0 and 100" ↔
        (v < 0 ∨ v > 100))) ∧
    (∀ v : ℚ, (validate_temperature v = Except.ok v ↔ -50 ≤ v ∧ v ≤ 80) ∧
      (validate_temperature v = Except.error "Temperature must be between -50 and 80 Celsius" ↔
        (v < -50 ∨ v > 80))) ∧
    (∀ v : ℚ, (validate_height v = Except.ok v ↔ 0 ≤ v ∧ v ≤ 1000) ∧
      (validate_height v = Except.error "Height must be between 0 and 1000 cm" ↔
        (v < 0 ∨ v > 1000))) ∧
    (∀ v : ℤ, (validate_rgb v = Except.ok v ↔ 0 ≤ v ∧ v ≤ 255) ∧
      (validate_rgb v = Except.error "RGB values must be between 0 and 255" ↔
        (v < 0 ∨ v > 255))) ∧
    (∀ v : ℚ, (validate_stress_scores v = Except.ok v ↔ 0 ≤ v ∧ v ≤ 10) ∧
      (validate_stress_scores v = Except.error "Stress scores must be between 0 and 10" ↔
        (v < 0 ∨ v > 10))) ∧
    (∀ v : ℚ, (validate_health_score v = Except.ok v ↔ 0 ≤ v ∧ v ≤ 100) ∧
      (validate_health_score v = Except.error "Health score must be between 0 and 100" ↔
        (v < 0 ∨ v > 100))) := by
  refine ⟨fun v => ⟨?_, ?_⟩, fun v => ⟨?_, ?_⟩, fun v => ⟨?_, ?_⟩, fun v => ⟨?_, ?_⟩,
         fun v => ⟨?_, ?_⟩, fun v => ⟨?_, ?_⟩, fun v => ⟨?_, ?_⟩⟩
  · exact rangeCheck_ok_iff 0 14 v _
  · exact rangeCheck_error_iff 0 14 v _
  · exact rangeCheck_ok_iff 0 100 v _
  · exact rangeCheck_error_iff 0 100 v _
  · exact rangeCheck_ok_iff (-50) 80 v _
  · exact rangeCheck_error_iff (-50) 80 v _
  · exact rangeCheck_ok_iff 0 1000 v _
  · exact rangeCheck_error_iff 0 1000 v _
  · exact rangeCheck_ok_iff 0 255 v _
  · exact rangeCheck_error_iff 0 255 v _
  · exact rangeCheck_ok_iff 0 10 v _
  · exact rangeCheck_error_iff 0 10 v _
  · exact rangeCheck_ok_iff 0 100 v _
  · exact rangeCheck_error_iff 0 100 v _

/-- Claim C4, witness: the boundary value 14 is accepted unchanged by
the pH validator, and 15 is rejected. -/
theorem claim_C4_witness :
    validate_ph 14 = Except.ok 14 ∧
    validate_ph 15 = Except.error "pH must be between 0 and 14" :=
  ⟨((claim_C4.1 14).1).mpr (by norm_num), ((claim_C4.1 15).2).mpr (by norm_num)⟩

/-! ### Concrete plant readings -/

/-- A plant reading with every stress indicator at its worst: all three
stress scores 10, disease symptoms and deficiency signs non-empty, pest
present, chlorophyll below 20, growth below 0.5.  Its stored
`health_score` keeps the column default 100. -/
def maxStressPlant : PlantReading :=
  { mkDefaultPlantReading "tomato" "p1" 50 "s1" with
    water_stress_level := 10
    heat_stress_score := 10
    drought_stress_score := 10
    disease_symptoms := "leaf spots"
    pest_presence := true
    nutrient_deficiency_signs := "yellowing"
    leaf_chlorophyll_index := 10
    growth_rate_cm_per_week := 0 }

/-- A default plant reading with only its water stress raised to 10. -/
def waterStressedPlant : PlantReading :=
  { mkDefaultPlantReading "tomato" "p2" 50 "s1" with water_stress_level := 10 }

/-- A default plant reading growing at 2.0 cm/week. -/
def fastGrowthPlant : PlantReading :=
  { mkDefaultPlantReading "tomato" "p3" 50 "s1" with growth_rate_cm_per_week := 2 }

/-! ### Claim C5 -/

/-- Claim C5: `calculate_health_score` always lands in [0, 100], and on
any maximal-stress reading (all stress scores 10, disease symptoms and
deficiency signs non-empty, pest present, chlorophyll < 20,
growth < 0.5) it returns exactly 0. -/
theorem claim_C5 :
    (∀ r : PlantReading, 0 ≤ calculate_health_score r ∧ calculate_health_score r ≤ 100) ∧
    (∀ r : PlantReading,
      r.water_stress_level = 10 → r.heat_stress_score = 10 →
      r.drought_stress_score = 10 → r.disease_symptoms ≠ "" →
      r.pest_presence = true → r.nutrient_deficiency_signs ≠ "" →
      r.leaf_chlorophyll_index < 20 → r.growth_rate_cm_per_week < 1/2 →
      calculate_health_score r = 0) := by
  constructor
  · intro r
    simp only [calculate_health_score]
    exact ⟨le_max_left _ _, max_le (by norm_num) (min_le_left _ _)⟩
  · intro r h1 h2 h3 h4 h5 h6 h7 h8
    have h40 : ¬ r.leaf_chlorophyll_index > 40 := by linarith
    simp only [calculate_health_score, h1, h2, h3, h5, if_pos h4, if_true,
      if_pos h6, if_neg h40, if_pos h7, if_pos h8]
    norm_num

/-- Claim C5, witness: on the concrete maximal-stress reading the
computed health score is exactly 0. -/
theorem claim_C5_witness : calculate_health_score maxStressPlant = 0 :=
  claim_C5.2 maxStressPlant rfl rfl rfl (by decide) rfl (by decide)
    (by norm_num [maxStressPlant, mkDefaultPlantReading])
    (by norm_num [maxStressPlant, mkDefaultPlantReading])

/-! ### Claim C8 -/

/-- Claim C8: calling `calculate_health_score` leaves the receiver
unchanged — the post-state of the call is the original reading, so the
stored `health_score` column keeps its prior value; concretely, on a
water-stressed reading the call computes 30 while the stored score
remains the default 100. -/
theorem claim_C8 :
    (∀ r : PlantReading, calculate_health_score_call r = (calculate_health_score r, r)) ∧
    (∀ r : PlantReading, ((calculate_health_score_call r).2).health_score = r.health_score) ∧
    ((calculate_health_score_call waterStressedPlant).2).health_score = 100 ∧
    calculate_health_score waterStressedPlant = 30 := by
  refine ⟨fun r => rfl, fun r => rfl, rfl, ?_⟩
  norm_num [calculate_health_score, waterStressedPlant, mkDefaultPlantReading]

/-! ### Claim C9 -/

/-- Claim C9, counterexample: at growth rate 2.0 `get_growth_status`
returns the label "Excellent growth", not "Excellent". -/
theorem claim_C9_counterexample :
    get_growth_status fastGrowthPlant = "Excellent growth" ∧
    get_growth_status fastGrowthPlant ≠ "Excellent" := by
  constructor
  · rfl
  · intro h
    exact absurd ((rfl : get_growth_status fastGrowthPlant = "Excellent growth").symm.trans h)
      (by decide)

/-- Claim C9 as amended: `get_growth_status` returns one of the four
fixed labels "Excellent growth", "Good growth", "Moderate growth",
"Slow growth", selected by growth-rate bands checked in descending
order, so boundary values resolve to the higher label: rate ≥ 2.0 yields
"Excellent growth", else ≥ 1.0 yields "Good growth", else ≥ 0.5 yields
"Moderate growth", else "Slow growth". -/
theorem claim_C9_amended :
    ∀ r : PlantReading,
      (r.growth_rate_cm_per_week ≥ 2 → get_growth_status r = "Excellent growth") ∧
      (r.growth_rate_cm_per_week < 2 → r.growth_rate_cm_per_week ≥ 1 →
        get_growth_status r = "Good growth") ∧
      (r.growth_rate_cm_per_week < 1 → r.growth_rate_cm_per_week ≥ 1/2 →
        get_growth_status r = "Moderate growth") ∧
      (r.growth_rate_cm_per_week < 1/2 → get_growth_status r = "Slow growth") ∧
      (get_growth_status r = "Excellent growth" ∨ get_growth_status r = "Good growth" ∨
       get_growth_status r = "Moderate growth" ∨ get_growth_status r = "Slow growth") := by
  intro r
  unfold get_growth_status
  split_ifs with hA hB hC <;>
    refine ⟨?_, ?_, ?_, ?_, ?_⟩ <;> intros <;> first | rfl | linarith | tauto

/-- Claim C9 amended, witness: the boundary rate 2.0 resolves to the
highest band. -/
theorem claim_C9_amended_witness :
    get_growth_status fastGrowthPlant = "Excellent growth" :=
  (claim_C9_amended fastGrowthPlant).1
    (by norm_num [fastGrowthPlant, mkDefaultPlantReading])

/-! ### Claim C10 -/

/-- Claim C10: `is_healthy` compares the stored `health_score` column
against the threshold with `≥` (equality counts as healthy), and since
the column defaults to 100, a reading whose computed score was never
written back is healthy at the default threshold 70 regardless of its
stress, disease or pest fields — concretely, the maximal-stress reading
is reported healthy while its computed score is 0. -/
theorem claim_C10 :
    (∀ (r : PlantReading) (t : ℚ), is_healthy r t = true ↔ r.health_score ≥ t) ∧
    (∀ (r : PlantReading) (t : ℚ), r.health_score = t → is_healthy r t = true) ∧
    (∀ r : PlantReading, r.health_score = 100 → is_healthy r 70 = true) ∧
    (is_healthy maxStressPlant 70 = true ∧ calculate_health_score maxStressPlant = 0) := by
  have hiff : ∀ (r : PlantReading) (t : ℚ), is_healthy r t = true ↔ r.health_score ≥ t := by
    intro r t
    unfold is_healthy
    exact decide_eq_true_iff
  refine ⟨hiff, ?_, ?_, ?_, ?_⟩
  · intro r t h
    exact (hiff r t).mpr (le_of_eq h.symm)
  · intro r h
    exact (hiff r 70).mpr (by rw [h]; norm_num)
  · exact (hiff maxStressPlant 70).mpr (by norm_num [maxStressPlant, mkDefaultPlantReading])
  · have hd : ("leaf spots" : String) = "" ↔ False := by simp
    have hn : ("yellowing" : String) = "" ↔ False := by simp
    norm_num [calculate_health_score, maxStressPlant, mkDefaultPlantReading, hd, hn]

/-- Claim C10, witness: a reading with stored score exactly equal to the
threshold counts as healthy. -/
theorem claim_C10_witness : is_healthy (mkDefaultPlantReading "t" "p" 50 "s") 100 = true :=
  claim_C10.2.1 (mkDefaultPlantReading "t" "p" 50 "s") 100 rfl

/-! ### Claim C6 -/

/-- A penalty term grows (weakly) when its triggering condition spreads. -/
theorem ite_le_ite_of_imp {P Q : Prop} [Decidable P] [Decidable Q]
    (h : P → Q) (a : ℤ) (ha : 0 ≤ a) :
    (if P then a else 0) ≤ (if Q then a else 0) := by
  split_ifs with hP hQ
  · exact le_rfl
  · exact absurd (h hP) hQ
  · exact ha
  · exact le_rfl

/-- A conditional deduction is a deduction of a conditional amount. -/
theorem ite_sub_eq_sub_ite (s a : ℤ) (p : Prop) [Decidable p] :
    (if p then s - a else s) = s - (if p then a else 0) := by
  split_ifs <;> simp

/-- The soil quality score equals 100 minus the total band penalty,
floored at 0. -/
theorem get_soil_quality_score_eq (r : SoilReading) (c : Config) :
    get_soil_quality_score r c = max 0 (100 - violation_penalty r c) := by
  simp only [get_soil_quality_score, violation_penalty, ite_sub_eq_sub_ite]
  congr 1
  ring

/-- The total penalty is monotone in the set of violated bands. -/
theorem violation_penalty_mono (r1 r2 : SoilReading) (c : Config)
    (h1 : ph_violated r1 c → ph_violated r2 c)
    (h2 : moisture_violated r1 c → moisture_violated r2 c)
    (h3 : temperature_violated r1 c → temperature_violated r2 c)
    (h4 : nitrogen_deficient r1 c → nitrogen_deficient r2 c)
    (h5 : phosphorus_deficient r1 c → phosphorus_deficient r2 c)
    (h6 : potassium_deficient r1 c → potassium_deficient r2 c)
    (h7 : salinity_high r1 → salinity_high r2) :
    violation_penalty r1 c ≤ violation_penalty r2 c := by
  unfold ph_violated at h1
  unfold moisture_violated at h2
  unfold temperature_violated at h3
  unfold nitrogen_deficient at h4
  unfold phosphorus_deficient at h5
  unfold potassium_deficient at h6
  unfold salinity_high at h7
  unfold violation_penalty
  exact add_le_add (add_le_add (add_le_add (add_le_add (add_le_add (add_le_add
    (ite_le_ite_of_imp h1 20 (by norm_num))
    (ite_le_ite_of_imp h2 15 (by norm_num)))
    (ite_le_ite_of_imp h3 10 (by norm_num)))
    (ite_le_ite_of_imp h4 15 (by norm_num)))
    (ite_le_ite_of_imp h5 15 (by norm_num)))
    (ite_le_ite_of_imp h6 15 (by norm_num)))
    (ite_le_ite_of_imp h7 10 (by norm_num))

/-- Claim C6: `get_soil_quality_score` is never negative, and under a
fixed configuration it is non-increasing in the set of violated
threshold bands: a reading violating a superset of the bands violated by
another scores no higher. -/
theorem claim_C6 :
    (∀ (r : SoilReading) (c : Config), 0 ≤ get_soil_quality_score r c) ∧
    (∀ (r1 r2 : SoilReading) (c : Config),
      (ph_violated r1 c → ph_violated r2 c) →
      (moisture_violated r1 c → moisture_violated r2 c) →
      (temperature_violated r1 c → temperature_violated r2 c) →
      (nitrogen_deficient r1 c → nitrogen_deficient r2 c) →
      (phosphorus_deficient r1 c → phosphorus_deficient r2 c) →
      (potassium_deficient r1 c → potassium_deficient r2 c) →
      (salinity_high r1 → salinity_high r2) →
      get_soil_quality_score r2 c ≤ get_soil_quality_score r1 c) := by
  constructor
  · intro r c
    simp only [get_soil_quality_score]
    exact le_max_left _ _
  · intro r1 r2 c h1 h2 h3 h4 h5 h6 h7
    rw [get_soil_quality_score_eq, get_soil_quality_score_eq]
    have hmono := violation_penalty_mono r1 r2 c h1 h2 h3 h4 h5 h6 h7
    exact max_le_max le_rfl (by omega)

/-- Claim C6, witness: moving the pH of an otherwise in-band reading out
of the configured band (a strict superset of violated bands) does not
raise the score. -/
theorem claim_C6_witness :
    get_soil_quality_score acidSoil defaultConfig ≤
      get_soil_quality_score goodSoil defaultConfig :=
  claim_C6.2 goodSoil acidSoil defaultConfig
    (fun h => absurd h (by norm_num [ph_violated, goodSoil, defaultConfig]))
    (fun h => absurd h (by norm_num [moisture_violated, goodSoil, defaultConfig]))
    (fun h => absurd h (by norm_num [temperature_violated, goodSoil, defaultConfig]))
    (fun h => absurd h (by norm_num [nitrogen_deficient, goodSoil, defaultConfig]))
    (fun h => absurd h (by norm_num [phosphorus_deficient, goodSoil, defaultConfig]))
    (fun h => absurd h (by norm_num [potassium_deficient, goodSoil, defaultConfig]))
    (fun h => absurd h (by norm_num [salinity_high, goodSoil]))

/-! ### Claim C7 -/

/-- Rounding half-to-even moves a rational by at most 1/2. -/
theorem roundHalfEven_sub_abs_le (x : ℚ) : |(roundHalfEven x : ℚ) - x| ≤ 1/2 := by
  have hself := Int.self_sub_fract x
  have h0 := Int.fract_nonneg x
  have h1 := Int.fract_lt_one x
  unfold roundHalfEven
  split_ifs with ha hb hc <;>
    · rw [abs_le]; push_cast; constructor <;> linarith

/-- Three one-decimal roundings of percentages that sum exactly to 100
produce a sum within 1/10 of 100: each rounding moves its term by at
most 1/20, and the rounded sum is a multiple of 1/10. -/
theorem roundTo1_sum_bound (x1 x2 x3 : ℚ) (hsum : x1 + x2 + x3 = 100) :
    |roundTo1 x1 + roundTo1 x2 + roundTo1 x3 - 100| ≤ 1/10 := by
  have h1 := roundHalfEven_sub_abs_le (x1 * 10)
  have h2 := roundHalfEven_sub_abs_le (x2 * 10)
  have h3 := roundHalfEven_sub_abs_le (x3 * 10)
  set a := roundHalfEven (x1 * 10) with hadef
  set b := roundHalfEven (x2 * 10) with hbdef
  set c := roundHalfEven (x3 * 10) with hcdef
  have hde : roundTo1 x1 + roundTo1 x2 + roundTo1 x3 - 100
      = ((a + b + c - 1000 : ℤ) : ℚ) / 10 := by
    unfold roundTo1
    rw [← hadef, ← hbdef, ← hcdef]
    push_cast
    ring
  have hd : |((a + b + c - 1000 : ℤ) : ℚ)| ≤ 3/2 := by
    have e : ((a + b + c - 1000 : ℤ) : ℚ)
        = ((a : ℚ) - x1 * 10) + ((b : ℚ) - x2 * 10) + ((c : ℚ) - x3 * 10) := by
      push_cast
      linarith
    rw [e]
    have t1 := abs_add (((a : ℚ) - x1 * 10) + ((b : ℚ) - x2 * 10)) ((c : ℚ) - x3 * 10)
    have t2 := abs_add ((a : ℚ) - x1 * 10) ((b : ℚ) - x2 * 10)
    linarith
  have hint : |((a + b + c - 1000 : ℤ) : ℚ)| ≤ 1 := by
    rw [abs_le] at hd ⊢
    constructor
    · have hq : (-2 : ℚ) < ((a + b + c - 1000 : ℤ) : ℚ) := by linarith
      have hz : (-2 : ℤ) < a + b + c - 1000 := by exact_mod_cast hq
      have : (-1 : ℤ) ≤ a + b + c - 1000 := by omega
      exact_mod_cast this
    · have hq : ((a + b + c - 1000 : ℤ) : ℚ) < 2 := by linarith
      have hz : a + b + c - 1000 < (2 : ℤ) := by exact_mod_cast hq
      have : a + b + c - 1000 ≤ (1 : ℤ) := by omega
      exact_mod_cast this
  rw [hde, abs_div]
  have h10 : |(10 : ℚ)| = 10 := by norm_num
  rw [h10]
  linarith

/-- Claim C7: whenever the nutrient total is positive, the three
percentages returned by `get_npk_ratio` sum to 100 within ±0.1; when all
three nutrients are 0 the function returns `(0, 0, 0)` through its
zero-total guard. -/
theorem claim_C7 (r : SoilReading) :
    (0 < r.nitrogen + r.phosphorus + r.potassium →
      |(get_npk_ratio r).1 + (get_npk_ratio r).2.1 + (get_npk_ratio r).2.2 - 100| ≤ 1/10) ∧
    ((r.nitrogen = 0 ∧ r.phosphorus = 0 ∧ r.potassium = 0) →
      get_npk_ratio r = (0, 0, 0)) := by
  constructor
  · intro htot
    have hne : r.nitrogen + r.phosphorus + r.potassium ≠ 0 := ne_of_gt htot
    have hexp : get_npk_ratio r =
        (roundTo1 (r.nitrogen / (r.nitrogen + r.phosphorus + r.potassium) * 100),
         roundTo1 (r.phosphorus / (r.nitrogen + r.phosphorus + r.potassium) * 100),
         roundTo1 (r.potassium / (r.nitrogen + r.phosphorus + r.potassium) * 100)) := by
      simp only [get_npk_ratio]
      rw [if_neg hne]
    rw [hexp]
    apply roundTo1_sum_bound
    field_simp
    ring
  · rintro ⟨h1, h2, h3⟩
    simp only [get_npk_ratio, h1, h2, h3]
    norm_num

/-- Claim C7, witness: on the spec's example reading (N = P = K = 10)
the total is positive and the rounded percentages (33.3 each) sum to
99.9, within ±0.1 of 100. -/
theorem claim_C7_witness :
    (0 : ℚ) < c1Reading.nitrogen + c1Reading.phosphorus + c1Reading.potassium ∧
    |(get_npk_ratio c1Reading).1 + (get_npk_ratio c1Reading).2.1 +
      (get_npk_ratio c1Reading).2.2 - 100| ≤ 1/10 :=
  ⟨by norm_num [c1Reading], (claim_C7 c1Reading).1 (by norm_num [c1Reading])⟩
